import Mathlib

/-!
Shallow embedding of the two Open WebUI tool adapters
(`Tools/jina_web_tools.py` and `Tools/knowledge_base.py`).

Python strings are modelled as Lean `String` (a list of Unicode code
points, matching Python's code-point semantics for `len`, slicing and
searching).  The optional host event sink is modelled by an `Emitter`
state; every emission function returns the list of payloads delivered to
the sink (empty when no sink is configured).  Outbound HTTP is modelled
by passing each call's outcome as an explicit argument; the workflows are
then pure functions from those outcomes to the emitted event trace, the
issued request URLs, and the returned value.
-/

/- ### Python string primitives used by the source -/

/-- Python `str.startswith(p)`: the code points of `p` are a prefix of `s`. -/
def startsWithStr (s p : String) : Bool :=
  p.data.isPrefixOf s.data

/-- Python `str.isspace` characters stripped by `str.strip()` (ASCII range:
space, tab, newline, carriage return, vertical tab, form feed). -/
def isPySpace (c : Char) : Bool :=
  c == ' ' || c == '\t' || c == '\n' || c == '\r' || c == Char.ofNat 11 || c == Char.ofNat 12

/-- Python `str.strip()`: removes leading and trailing whitespace. -/
def pyStrip (s : String) : String :=
  ⟨(((s.data.dropWhile isPySpace).reverse.dropWhile isPySpace)).reverse⟩

/-- Trailing-whitespace-only trim (Python `str.rstrip()`); used to state the
spec's reading of the truncation step, which keeps leading whitespace. -/
def pyRStrip (s : String) : String :=
  ⟨(s.data.reverse.dropWhile isPySpace).reverse⟩

/-- The substring `sub` occurs in `s` at index `i`. -/
def occursAt (sub s : List Char) (i : Nat) : Bool :=
  sub.isPrefixOf (s.drop i)

/-- Highest index `≤ n` at which `sub` occurs in `s`, scanning downward. -/
def rfindFrom (sub s : List Char) : Nat → Option Nat
  | 0 => if occursAt sub s 0 then some 0 else none
  | n + 1 => if occursAt sub s (n + 1) then some (n + 1) else rfindFrom sub s n

/-- Python `str.rfind(sub)`: index of the last occurrence of `sub` in `s`,
`none` standing for Python's `-1`. -/
def pyRFind (s sub : List Char) : Option Nat :=
  rfindFrom sub s s.length

/-- Lines 88-91 of `jina_web_tools.py`: truncate the response body at the
last occurrence of `"Images:"` (when present) and apply `str.strip()`. -/
def scrapeContent (body : String) : String :=
  match pyRFind body.data "Images:".data with
  | none => body
  | some i => pyStrip ⟨body.data.take i⟩

/-- Modelled from the spec's words (section 4.2 step e and section 8): the
same truncation but trimming only trailing whitespace, with leading content
preserved.  Stated only to be compared against `scrapeContent`. -/
def scrapeContentSpec (body : String) : String :=
  match pyRFind body.data "Images:".data with
  | none => body
  | some i => pyRStrip ⟨body.data.take i⟩

/- ### Model of Python urllib.parse.urljoin (library code, not part of this
repository) -/

/-- Characters allowed after the first character of a URL scheme. -/
def isSchemeChar (c : Char) : Bool :=
  c.isAlphanum || c == '+' || c == '-' || c == '.'

/-- Splits a character list at its first colon, if any. -/
def takeUntilColon : List Char → Option (List Char × List Char)
  | [] => none
  | c :: cs =>
    if c == ':' then some ([], cs)
    else
      match takeUntilColon cs with
      | none => none
      | some (a, b) => some (c :: a, b)

/-- A non-empty scheme: a letter followed by scheme characters. -/
def validScheme (l : List Char) : Bool :=
  match l with
  | [] => false
  | c :: cs => c.isAlpha && cs.all isSchemeChar

/-- Scheme of a URL per `urllib.parse.urlsplit`: the text before the first
colon when it forms a valid scheme, otherwise empty (the schemes this
program produces are already lowercase, so case folding is omitted). -/
def schemeOf (s : String) : String :=
  match takeUntilColon s.data with
  | none => ""
  | some (pre, _) => if validScheme pre then ⟨pre⟩ else ""

/-- The `uses_relative` scheme list of `urllib.parse`. -/
def usesRelative : List String :=
  ["", "ftp", "http", "gopher", "nntp", "imap", "wais", "file", "https",
   "shttp", "mms", "prospero", "rtsp", "rtspu", "sftp", "svn", "svn+ssh",
   "ws", "wss"]

/-- The authority component read by `urllib.parse.urlsplit`: when the text
after the scheme begins with `//`, the run up to the first `/`, `?` or
`#`; empty otherwise. -/
def netlocOf (s : String) : List Char :=
  let rest :=
    match takeUntilColon s.data with
    | some (pre, after) => if validScheme pre then after else s.data
    | none => s.data
  match rest with
  | '/' :: '/' :: r => r.takeWhile (fun c => c ≠ '/' ∧ c ≠ '?' ∧ c ≠ '#')
  | _ => []

/-- The check `urllib.parse.urlsplit` performs on the authority: a square
bracket without its partner raises `ValueError("Invalid IPv6 URL")`. -/
def invalidIPv6 (s : String) : Bool :=
  let nl := netlocOf s
  (nl.contains '[' && !(nl.contains ']')) || (nl.contains ']' && !(nl.contains '['))

deriving instance DecidableEq for Except

/-- Models `urllib.parse.urljoin`, including its failure: `urlsplit` is
applied to the base and then to the url, and raises
`ValueError("Invalid IPv6 URL")` on an unbalanced-bracket authority —
reachable here, since the extraction pattern's trailing run admits
brackets (e.g. `https://a[b`).  When both split, a url whose scheme
differs from the base's (or lies outside `uses_relative`) is returned
unchanged — the only non-raising branch this program can reach, since
every URL it joins starts with `http://` or `https://` while its base
`"r.jina.ai/"` has no scheme.  The unreachable same-scheme branch is
approximated by merging onto the base's last path segment. -/
def urljoin (base url : String) : Except String String :=
  if base = "" then Except.ok url
  else if url = "" then Except.ok base
  else if invalidIPv6 base then Except.error "Invalid IPv6 URL"
  else if invalidIPv6 url then Except.error "Invalid IPv6 URL"
  else if schemeOf url ≠ schemeOf base ∨ ¬ (schemeOf url ∈ usesRelative) then Except.ok url
  else Except.ok ⟨(base.data.reverse.dropWhile (fun c => c ≠ '/')).reverse ++ url.data⟩

/- ### Events and the progress reporter -/

/-- Payload delivered to the host sink: the event kind with its data. -/
inductive Event where
  | status (status : String) (description : String) (done : Bool)
  | message (content : String)
  | citation (document : String) (metadata : List (String × String)) (source : String)
  | codeExecutionResult (output : String)
deriving Repr, DecidableEq

/-- Observable state of an `EventEmitter`: whether a sink is configured and
the optional status prefix. -/
structure Emitter where
  hasSink : Bool
  statusPrefix : Option String
deriving Repr, DecidableEq

/-- The `_emit` method: delivers the payload to the sink when one is
configured (lines 136-149 of `jina_web_tools.py`, lines 30-43 of
`knowledge_base.py`); the returned list records the sink invocations. -/
def Emitter.emit (e : Emitter) (ev : Event) : List Event :=
  if e.hasSink then [ev] else []

/-- Prefixing of a status description by the stored status prefix. -/
def prefixApply (e : Emitter) (d : String) : String :=
  match e.statusPrefix with
  | some p => p ++ d
  | none => d

/-- The `status` method of the web-scrape variant (lines 151-173 of
`jina_web_tools.py`): emits once, then emits the same payload a second
time when the event is not final and the description is short. -/
def webStatus (e : Emitter) (description status : String) (done : Bool) : List Event :=
  let d := prefixApply e description
  let ev := Event.status status d done
  if done = false ∧ d.length ≤ 1024 then e.emit ev ++ e.emit ev else e.emit ev

/-- The `status` method of the knowledge-base variant (lines 45-58 of
`knowledge_base.py`): a single emission. -/
def kbStatus (e : Emitter) (description status : String) (done : Bool) : List Event :=
  e.emit (Event.status status (prefixApply e description) done)

/-- The `fail` method of the web-scrape variant (lines 175-177). -/
def webFail (e : Emitter) (description : String) : List Event :=
  webStatus e description "error" true

/-- The `fail` method of the knowledge-base variant (lines 60-62). -/
def kbFail (e : Emitter) (description : String) : List Event :=
  kbStatus e description "error" true

/-- The `message` method of the web-scrape variant (lines 179-186). -/
def webMessage (e : Emitter) (content : String) : List Event :=
  e.emit (Event.message content)

/-- The `citation` method of the web-scrape variant (lines 188-197). -/
def webCitation (e : Emitter) (document : String) (metadata : List (String × String)) (source : String) : List Event :=
  e.emit (Event.citation document metadata source)

/-- The `citation` method of the knowledge-base variant (lines 64-73). -/
def kbCitation (e : Emitter) (document : String) (metadata : List (String × String)) (source : String) : List Event :=
  e.emit (Event.citation document metadata source)

/-- The `code_execution_result` method of the web-scrape variant
(lines 199-206). -/
def webCodeExecutionResult (e : Emitter) (output : String) : List Event :=
  e.emit (Event.codeExecutionResult output)

/- ### Web scrape workflow (`Tools.jina_web_scrape`) -/

/-- Outcome of the `requests.get` call for one URL: a 2xx response body, or
a `requests.RequestException` (non-2xx raised by `raise_for_status`, or a
transport failure) carrying its rendered message. -/
inductive FetchOutcome where
  | success (body : String)
  | failure (error : String)
deriving Repr, DecidableEq

/-- Configuration set in `Tools.__init__` (lines 25-33 of
`jina_web_tools.py`). -/
structure ToolsCfg where
  base_url : String
  timeout : Nat
  headers : List (String × String)
deriving Repr, DecidableEq

/-- The constructed configuration. -/
def toolsInit : ToolsCfg :=
  { base_url := "r.jina.ai/"
    timeout := 30
    headers := [("X-No-Cache", "true"), ("X-With-Images-Summary", "true"),
                ("X-With-Links-Summary", "true")] }

/-- Lines 65-66: prepend `https://` when the URL has no recognised scheme
prefix. -/
def normalizeUrl (url : String) : String :=
  if startsWithStr url "http://" || startsWithStr url "https://" then url
  else "https://" ++ url

/-- Lines 62-105, one loop iteration: the events emitted for this URL, the
request URLs passed to `requests.get`, and the text block appended to the
results.  The `urljoin` call at line 68 precedes every per-URL status; if
it raises (a `ValueError` on an unbalanced-bracket authority), the outer
`except Exception` arm at lines 101-105 reports an error status and
appends an `"## Error processing"` block, and no request is issued.  The
remaining sources of unexpected exceptions (the sink, the pure string
steps) are total in this model, so the outer arm fires exactly on a
`urljoin` failure. -/
def processUrl (t : ToolsCfg) (e : Emitter) (p : String × FetchOutcome) :
    List Event × (List String × String) :=
  let url := normalizeUrl p.1
  match urljoin t.base_url url with
  | Except.error exnMsg =>
    let msg := "Unexpected error while processing " ++ (url ++ (": " ++ exnMsg))
    (webStatus e msg "error" false,
     ([], "## Error processing " ++ (url ++ (": \n" ++ (msg ++ "\n\n")))))
  | Except.ok jinaUrl =>
    let evs :=
      webStatus e ("Initiating Jina web scrape for: " ++ url) "in_progress" false
      ++ webStatus e ("Preparing request to Jina service for " ++ (url ++ "...")) "in_progress" false
      ++ webStatus e ("Sending request to Jina service for " ++ (url ++ "...")) "in_progress" false
    match p.2 with
    | FetchOutcome.success body =>
      (evs ++ webStatus e ("Processing response from Jina service for " ++ (url ++ "...")) "in_progress" false,
       ([jinaUrl],
        "## Web Scrape Result for " ++ (url ++ (": \n\n" ++ (scrapeContent body ++ "\n\n")))))
    | FetchOutcome.failure err =>
      (evs ++ webStatus e ("Failed to scrape " ++ (url ++ (": " ++ err))) "error" false,
       ([jinaUrl],
        "## Error scraping " ++ (url ++ (": \n" ++ (("Failed to scrape " ++ (url ++ (": " ++ err))) ++ "\n\n")))))

/-- Observable behavior of one `jina_web_scrape` call. -/
structure ScrapeOutput where
  events : List Event
  requests : List String
  blocks : List String
  result : String

/-- Lines 38-114 of `jina_web_tools.py`.  The URL-extraction step is the
black-box regex (see `urlPatternMatch` below); its matches, paired with
the HTTP outcome each will receive, are the `urls` argument. -/
def jina_web_scrape (t : ToolsCfg) (e : Emitter) (urls : List (String × FetchOutcome)) :
    ScrapeOutput :=
  if urls.isEmpty then
    { events := webStatus e "No valid URLs found in the input" "complete" true
      requests := []
      blocks := []
      result := "No valid URLs found to scrape." }
  else
    let per := urls.map (processUrl t e)
    { events :=
        webStatus e ("Found " ++ (toString urls.length ++ " URLs to scrape")) "in_progress" false
        ++ (per.map Prod.fst).flatten
        ++ webStatus e ("Completed scraping " ++ (toString urls.length ++ " URLs")) "complete" true
      requests := (per.map (fun x => x.2.1)).flatten
      blocks := per.map (fun x => x.2.2)
      result := String.join (per.map (fun x => x.2.2)) }

/- ### Knowledge base query workflow (`Tools.query`) -/

/-- One document record of the service response, with each field optional
(the code reads them with `dict.get` defaults). -/
structure KBResult where
  content : Option String
  metadata : Option (List (String × String))
  source : Option String
deriving Repr, DecidableEq

/-- A parsed JSON response: the optional top-level `status` and `message`
fields and the optional `results` array. -/
structure KBResponse where
  statusField : Option String
  message : Option String
  results : Option (List KBResult)
deriving Repr, DecidableEq

/-- Outcome of the POST plus response parsing: either some exception
(transport failure, `raise_for_status` on non-2xx, malformed JSON) with
its rendered message, or a parsed response. -/
inductive QueryOutcome where
  | exn (msg : String)
  | ok (resp : KBResponse)
deriving Repr, DecidableEq

/-- A single-quote character, as rendered by Python `str` of a `KeyError`. -/
def singleQuote : String :=
  ⟨[Char.ofNat 39]⟩

/-- The citation event built for one result (lines 138-143 of
`knowledge_base.py`), with the `dict.get` defaults. -/
def citeEvent (r : KBResult) : Event :=
  Event.citation (r.content.getD "") (r.metadata.getD []) (r.source.getD "knowledge_base")

/-- Lines 99-163 of `knowledge_base.py`, given an already-constructed
emitter: the emitted trace and the returned list.  A missing `status`
field makes `response_data["status"]` raise `KeyError("status")`, which
the `except` arm converts to a `fail` event and an empty return, like any
other exception after the POST. -/
def query (e : Emitter) (q : String) (oc : QueryOutcome) : List Event × List KBResult :=
  let s1 := kbStatus e "Preparing to search knowledge base..." "in_progress" false
  let s2 := kbStatus e ("Searching knowledge base for: " ++ q) "searching" false
  match oc with
  | QueryOutcome.exn msg =>
    (s1 ++ s2 ++ kbFail e ("Error querying knowledge base: " ++ msg), [])
  | QueryOutcome.ok resp =>
    let results := resp.results.getD []
    match resp.statusField with
    | none =>
      (s1 ++ s2 ++ kbFail e ("Error querying knowledge base: " ++ (singleQuote ++ ("status" ++ singleQuote))), [])
    | some st =>
      if st = "success" then
        if results.isEmpty then
          (s1 ++ s2 ++ kbStatus e (resp.message.getD "No relevant documents found") "no_results" true,
           results)
        else
          (s1 ++ s2
             ++ kbStatus e ("Found " ++ (toString results.length ++ " relevant documents")) "success" true
             ++ (results.map (fun r => kbCitation e (r.content.getD "") (r.metadata.getD []) (r.source.getD "knowledge_base"))).flatten,
           results)
      else
        (s1 ++ s2 ++ kbStatus e (resp.message.getD "Query failed") "error" true, results)

/-- The `__event_emitter__` argument passed to `query`: absent (`None`), a
callable, or a non-callable value. -/
inductive SinkArg where
  | noSink
  | callableSink
  | nonCallable
deriving Repr, DecidableEq

/-- `EventEmitter(__event_emitter__)` construction: `__post_init__`
(lines 22-24 of `knowledge_base.py`) raises `ValueError` on a value that
is neither `None` nor callable. -/
def mkEmitter : SinkArg → Except String Emitter
  | SinkArg.noSink => Except.ok { hasSink := false, statusPrefix := none }
  | SinkArg.callableSink => Except.ok { hasSink := true, statusPrefix := none }
  | SinkArg.nonCallable => Except.error "event_emitter must be callable"

/-- The full `query` entry point: the emitter is constructed at line 97,
before the `try` block that starts at line 99, so a construction failure
propagates to the caller. -/
def queryCall (arg : SinkArg) (q : String) (oc : QueryOutcome) :
    Except String (List Event × List KBResult) :=
  match mkEmitter arg with
  | Except.error m => Except.error m
  | Except.ok e => Except.ok (query e q oc)

/- ### The URL extraction pattern -/

/-- A character matched by the `[-\w.]` alternative of the URL pattern
(ASCII reading of the word class). -/
def isUrlSimpleChar (c : Char) : Bool :=
  c == '-' || c.isAlphanum || c == '_' || c == '.'

/-- A hexadecimal digit, as in the `%[\da-fA-F]{2}` alternative. -/
def isHexDigitChar (c : Char) : Bool :=
  c.isDigit || ('a' ≤ c && c ≤ 'f') || ('A' ≤ c && c ≤ 'F')

/-- One unit of the repeated group of the URL pattern at line 35 of
`jina_web_tools.py`: a single allowed character or a percent escape. -/
inductive UrlUnit : List Char → Prop where
  | simple (c : Char) : isUrlSimpleChar c = true → UrlUnit [c]
  | pct (a b : Char) : isHexDigitChar a = true → isHexDigitChar b = true → UrlUnit ['%', a, b]

/-- One or more repetitions of `UrlUnit`. -/
inductive UrlCorePlus : List Char → Prop where
  | last (u : List Char) : UrlUnit u → UrlCorePlus u
  | cons (u rest : List Char) : UrlUnit u → UrlCorePlus rest → UrlCorePlus (u ++ rest)

/-- A string matched by the URL pattern
`https?://(?:[-\w.]|(?:%[\da-fA-F]{2}))+[^\s]*`: a scheme prefix, one or
more core units, then any run of non-whitespace characters.  `re.findall`
returns exactly substrings matching the pattern from their first
character, so every extracted URL satisfies this predicate. -/
def urlPatternMatch (s : String) : Prop :=
  ∃ scheme core tail, (scheme = "http://".data ∨ scheme = "https://".data)
    ∧ UrlCorePlus core
    ∧ (∀ c ∈ tail, isPySpace c = false)
    ∧ s.data = scheme ++ (core ++ tail)

/- ### Helper predicates and lemmas -/

/-- Recognizes a status event. -/
def isStatusEv : Event → Bool
  | Event.status _ _ _ => true
  | _ => false

/-- Recognizes a `fail`-shaped status event (short code `error`, final). -/
def isFailStatus : Event → Bool
  | Event.status st _ dn => st == "error" && dn
  | _ => false

/-- Recognizes a citation event. -/
def isCitationEv : Event → Bool
  | Event.citation _ _ _ => true
  | _ => false

theorem isPrefixOf_append_self (l t : List Char) : l.isPrefixOf (l ++ t) = true := by
  induction l with
  | nil => simp [List.isPrefixOf]
  | cons a as ih => simp [List.isPrefixOf, ih]

theorem startsWithStr_of_data_append (s p : String) (t : List Char) (h : s.data = p.data ++ t) :
    startsWithStr s p = true := by
  unfold startsWithStr
  rw [h]
  exact isPrefixOf_append_self p.data t

theorem startsWithStr_append (p x : String) : startsWithStr (p ++ x) p = true :=
  startsWithStr_of_data_append (p ++ x) p x.data (String.data_append p x)

/-- C1: Every emission call on a reporter with a configured sink invokes the
sink exactly once per logical event — in particular every `status` call, in
both variants.  The code violates this: the web-scrape variant's `status`
delivers the same payload to the sink twice whenever the event is not final
and its description is at most 1024 characters, while the knowledge-base
variant delivers it once.  This theorem evaluates both variants at such a
call. -/
theorem C1_web_status_double_emission :
    (webStatus { hasSink := true, statusPrefix := none } "Found 1 URLs to scrape" "in_progress" false).length = 2
    ∧ (kbStatus { hasSink := true, statusPrefix := none } "Found 1 URLs to scrape" "in_progress" false).length = 1 := by
  decide

/-- C2: The claim states the GET for each URL goes to the joined address
`{base}/{targetUrl}`, not to the target URL directly.  In fact
`urljoin("r.jina.ai/", url)` returns `url` unchanged for every absolute
URL (the url's scheme differs from the base's empty scheme), so the
request is issued directly to the target and the upstream base is never
contacted.  This theorem evaluates the workflow at such an input. -/
theorem C2_request_bypasses_base :
    (jina_web_scrape toolsInit { hasSink := true, statusPrefix := none }
        [("https://example.com/page", FetchOutcome.success "body")]).requests
      = ["https://example.com/page"]
    ∧ urljoin "r.jina.ai/" "https://example.com/page" = Except.ok "https://example.com/page"
    ∧ urljoin "r.jina.ai/" "https://example.com/page" ≠ Except.ok "r.jina.ai/https://example.com/page" := by
  decide

/-- C8: For every description and every reporter state, `fail(description)`
produces exactly the sink invocations of `status(description, "error",
true)`, in both reporter variants. -/
theorem C8_fail_equiv_error_status (e : Emitter) (d : String) :
    webFail e d = webStatus e d "error" true ∧ kbFail e d = kbStatus e d "error" true :=
  ⟨rfl, rfl⟩

/-- C9: Calling `query` with an `__event_emitter__` that is neither `None`
nor callable raises `ValueError` from the emitter's `__post_init__`
before the `try` block is entered, so `query` raises instead of returning;
with `None` or a callable it always returns a value. -/
theorem C9_noncallable_sink_raises (q : String) (oc : QueryOutcome) (a : SinkArg)
    (ha : a ≠ SinkArg.nonCallable) :
    queryCall SinkArg.nonCallable q oc = Except.error "event_emitter must be callable"
    ∧ ∃ r, queryCall a q oc = Except.ok r := by
  refine ⟨rfl, ?_⟩
  cases a with
  | noSink => exact ⟨_, rfl⟩
  | callableSink => exact ⟨_, rfl⟩
  | nonCallable => exact absurd rfl ha

/-- Witness for C9 at a concrete call. -/
theorem C9_noncallable_sink_raises_witness :
    SinkArg.noSink ≠ SinkArg.nonCallable
    ∧ (queryCall SinkArg.nonCallable "q" (QueryOutcome.exn "boom")
          = Except.error "event_emitter must be callable"
      ∧ ∃ r, queryCall SinkArg.noSink "q" (QueryOutcome.exn "boom") = Except.ok r) :=
  ⟨by decide, C9_noncallable_sink_raises "q" (QueryOutcome.exn "boom") SinkArg.noSink (by decide)⟩

/-- C5: Every exception during the POST or the response handling —
transport failure, non-2xx (raised by `raise_for_status`), malformed JSON
(all modelled by `QueryOutcome.exn`), or a missing `status` field (the
`KeyError` path) — makes `query` emit exactly one `fail` status event and
return the empty sequence; the model is a total function, so nothing
propagates to the caller. -/
theorem C5_query_exceptions_fail_and_return_empty (e : Emitter) (q m : String)
    (mf : Option String) (rs : Option (List KBResult)) (hs : e.hasSink = true) :
    ((query e q (QueryOutcome.exn m)).2 = []
      ∧ (query e q (QueryOutcome.exn m)).1.countP isFailStatus = 1)
    ∧ ((query e q (QueryOutcome.ok ⟨none, mf, rs⟩)).2 = []
      ∧ (query e q (QueryOutcome.ok ⟨none, mf, rs⟩)).1.countP isFailStatus = 1) := by
  simp [query, kbStatus, kbFail, Emitter.emit, hs, isFailStatus,
    List.countP_append, List.countP_cons]

/-- Witness for C5 at a concrete reporter and outcome. -/
theorem C5_query_exceptions_fail_and_return_empty_witness :
    ({ hasSink := true, statusPrefix := none } : Emitter).hasSink = true
    ∧ (((query { hasSink := true, statusPrefix := none } "q" (QueryOutcome.exn "boom")).2 = []
      ∧ (query { hasSink := true, statusPrefix := none } "q" (QueryOutcome.exn "boom")).1.countP isFailStatus = 1)
    ∧ ((query { hasSink := true, statusPrefix := none } "q" (QueryOutcome.ok ⟨none, some "m", none⟩)).2 = []
      ∧ (query { hasSink := true, statusPrefix := none } "q" (QueryOutcome.ok ⟨none, some "m", none⟩)).1.countP isFailStatus = 1)) :=
  ⟨rfl, C5_query_exceptions_fail_and_return_empty _ "q" "boom" (some "m") none rfl⟩

theorem flatten_map_kbCitation (e : Emitter) (hs : e.hasSink = true) (rs : List KBResult) :
    (rs.map (fun r => kbCitation e (r.content.getD "") (r.metadata.getD []) (r.source.getD "knowledge_base"))).flatten
      = rs.map citeEvent := by
  induction rs with
  | nil => rfl
  | cons r rest ih =>
    simp [kbCitation, Emitter.emit, hs, citeEvent] at ih ⊢
    exact ih

theorem filter_map_citeEvent (rs : List KBResult) :
    (rs.map citeEvent).filter isCitationEv = rs.map citeEvent := by
  rw [List.filter_eq_self]
  intro a ha
  obtain ⟨r, _, rfl⟩ := List.mem_map.mp ha
  rfl

/-- C6: On a `success` response with non-empty results, `query` reports a
final `success` status announcing the count, then emits exactly one
citation per result, in result order, with the `dict.get` defaults for
`content`, `metadata` and `source`, and returns the results as received. -/
theorem C6_success_emits_citations (e : Emitter) (q : String) (mf : Option String)
    (rs : List KBResult) (hs : e.hasSink = true) (hne : rs ≠ []) :
    (query e q (QueryOutcome.ok ⟨some "success", mf, some rs⟩)).2 = rs
    ∧ (query e q (QueryOutcome.ok ⟨some "success", mf, some rs⟩)).1.filter isCitationEv
        = rs.map citeEvent
    ∧ ∃ l1, (query e q (QueryOutcome.ok ⟨some "success", mf, some rs⟩)).1
          = l1 ++ (Event.status "success"
                (prefixApply e ("Found " ++ (toString rs.length ++ " relevant documents"))) true
              :: rs.map citeEvent)
        ∧ l1.countP isCitationEv = 0 := by
  have hemp : rs.isEmpty = false := by
    cases rs with
    | nil => exact absurd rfl hne
    | cons a l => rfl
  refine ⟨?_, ?_, ?_⟩
  · simp [query, hemp]
  · simp [query, hemp, flatten_map_kbCitation e hs rs, List.filter_append,
      kbStatus, Emitter.emit, hs, isCitationEv, filter_map_citeEvent]
  · refine ⟨kbStatus e "Preparing to search knowledge base..." "in_progress" false
        ++ kbStatus e ("Searching knowledge base for: " ++ q) "searching" false, ?_, ?_⟩
    · simp [query, hemp, flatten_map_kbCitation e hs rs, kbStatus, Emitter.emit, hs]
    · simp [kbStatus, Emitter.emit, hs, List.countP_append, List.countP_cons, isCitationEv]

/-- Witness for C6 at the spec's example response. -/
theorem C6_success_emits_citations_witness :
    ({ hasSink := true, statusPrefix := none } : Emitter).hasSink = true
    ∧ ([⟨some "a", some [], some "s"⟩] : List KBResult) ≠ []
    ∧ ((query { hasSink := true, statusPrefix := none } "q"
          (QueryOutcome.ok ⟨some "success", none, some [⟨some "a", some [], some "s"⟩]⟩)).2
        = [⟨some "a", some [], some "s"⟩]
      ∧ (query { hasSink := true, statusPrefix := none } "q"
          (QueryOutcome.ok ⟨some "success", none, some [⟨some "a", some [], some "s"⟩]⟩)).1.filter isCitationEv
        = ([⟨some "a", some [], some "s"⟩] : List KBResult).map citeEvent
      ∧ ∃ l1, (query { hasSink := true, statusPrefix := none } "q"
            (QueryOutcome.ok ⟨some "success", none, some [⟨some "a", some [], some "s"⟩]⟩)).1
          = l1 ++ (Event.status "success"
                (prefixApply { hasSink := true, statusPrefix := none }
                  ("Found " ++ (toString ([⟨some "a", some [], some "s"⟩] : List KBResult).length
                    ++ " relevant documents"))) true
              :: ([⟨some "a", some [], some "s"⟩] : List KBResult).map citeEvent)
        ∧ l1.countP isCitationEv = 0) :=
  ⟨rfl, by decide,
    C6_success_emits_citations { hasSink := true, statusPrefix := none } "q" none
      [⟨some "a", some [], some "s"⟩] rfl (by decide)⟩

theorem one_le_countP_webStatus (e : Emitter) (d st : String) (dn : Bool)
    (hs : e.hasSink = true) : 1 ≤ (webStatus e d st dn).countP isStatusEv := by
  simp only [webStatus]
  split <;> simp [Emitter.emit, hs, isStatusEv, List.countP_append, List.countP_cons]

theorem mem_webStatus (e : Emitter) (d st : String) (dn : Bool) (hs : e.hasSink = true) :
    Event.status st (prefixApply e d) dn ∈ webStatus e d st dn := by
  simp only [webStatus]
  split <;> simp [Emitter.emit, hs]

theorem one_le_countP_processUrl (t : ToolsCfg) (e : Emitter) (p : String × FetchOutcome)
    (hs : e.hasSink = true) : 1 ≤ ((processUrl t e p).1.countP isStatusEv) := by
  obtain ⟨u, oc⟩ := p
  cases hju : urljoin t.base_url (normalizeUrl u) with
  | error m =>
    cases oc <;> simp [processUrl, hju] <;>
      exact ⟨Event.status "error"
          (prefixApply e ("Unexpected error while processing " ++ (normalizeUrl u ++ (": " ++ m)))) false,
        mem_webStatus e _ "error" false hs, rfl⟩
  | ok ju =>
    have h1 := one_le_countP_webStatus e ("Initiating Jina web scrape for: " ++ normalizeUrl u)
      "in_progress" false hs
    cases oc <;> simp [processUrl, hju, List.countP_append] <;> omega

theorem length_le_countP_scrape_events (t : ToolsCfg) (e : Emitter)
    (urls : List (String × FetchOutcome)) (hs : e.hasSink = true) :
    urls.length ≤ (((urls.map (processUrl t e)).map Prod.fst).flatten.countP isStatusEv) := by
  induction urls with
  | nil => simp
  | cons p ps ih =>
    simp only [List.map_cons, List.flatten_cons, List.countP_append, List.length_cons]
    have := one_le_countP_processUrl t e p hs
    omega

/-- C3 counterexample: the extraction pattern matches `https://a[b` (the
trailing non-whitespace run admits brackets), `urljoin` raises
`ValueError("Invalid IPv6 URL")` on it, and the outer except arm at lines
101-105 appends an `"## Error processing"` block — so for this one-URL
input the returned text contains neither of the claim's two markers,
falsifying the claim as stated. -/
theorem C3_error_processing_counterexample :
    urlPatternMatch "https://a[b"
    ∧ (jina_web_scrape toolsInit { hasSink := true, statusPrefix := none }
        [("https://a[b", FetchOutcome.success "x")]).blocks
      = ["## Error processing https://a[b: \nUnexpected error while processing https://a[b: Invalid IPv6 URL\n\n"]
    ∧ ¬ List.Forall₂ (fun (_p : String × FetchOutcome) (b : String) =>
          startsWithStr b "## Web Scrape Result for " = true
          ∨ startsWithStr b "## Error scraping " = true)
        [("https://a[b", FetchOutcome.success "x")]
        (jina_web_scrape toolsInit { hasSink := true, statusPrefix := none }
          [("https://a[b", FetchOutcome.success "x")]).blocks := by
  have hm : urlPatternMatch "https://a[b" :=
    ⟨"https://".data, ['a'], ['[', 'b'], Or.inr rfl,
      UrlCorePlus.last ['a'] (UrlUnit.simple 'a' (by decide)), by decide, by decide⟩
  have hb : (jina_web_scrape toolsInit { hasSink := true, statusPrefix := none }
        [("https://a[b", FetchOutcome.success "x")]).blocks
      = ["## Error processing https://a[b: \nUnexpected error while processing https://a[b: Invalid IPv6 URL\n\n"] := by
    decide
  refine ⟨hm, hb, ?_⟩
  intro hcontra
  rw [hb] at hcontra
  rcases List.forall₂_cons.mp hcontra with ⟨hr, _⟩
  revert hr
  decide

/-- C3 (amended): with a configured sink and N ≥ 1 extracted URLs, the
scrape returns the concatenation, in discovery order, of one block per
URL, each starting with `"## Web Scrape Result for "`, `"## Error
scraping "` or `"## Error processing "` (the last when `urljoin` raises
on the URL), and at least N+2 status events reach the sink. -/
theorem C3_block_per_url_and_status_lower_bound (t : ToolsCfg) (e : Emitter)
    (urls : List (String × FetchOutcome)) (hne : urls ≠ []) (hs : e.hasSink = true) :
    List.Forall₂ (fun (_p : String × FetchOutcome) (b : String) =>
        startsWithStr b "## Web Scrape Result for " = true
        ∨ startsWithStr b "## Error scraping " = true
        ∨ startsWithStr b "## Error processing " = true)
      urls (jina_web_scrape t e urls).blocks
    ∧ (jina_web_scrape t e urls).result = String.join (jina_web_scrape t e urls).blocks
    ∧ urls.length + 2 ≤ (jina_web_scrape t e urls).events.countP isStatusEv := by
  have hemp : urls.isEmpty = false := by
    cases urls with
    | nil => exact absurd rfl hne
    | cons a l => rfl
  refine ⟨?_, ?_, ?_⟩
  · simp only [jina_web_scrape, hemp, Bool.false_eq_true, if_false, List.map_map]
    rw [List.forall₂_map_right_iff, List.forall₂_same]
    intro p _
    obtain ⟨u, oc⟩ := p
    cases hju : urljoin t.base_url (normalizeUrl u) with
    | error m =>
      refine Or.inr (Or.inr ?_)
      simp only [Function.comp, processUrl, hju]
      exact startsWithStr_append "## Error processing " _
    | ok ju =>
      cases oc with
      | success body =>
        refine Or.inl ?_
        simp only [Function.comp, processUrl, hju]
        exact startsWithStr_append "## Web Scrape Result for " _
      | failure err =>
        refine Or.inr (Or.inl ?_)
        simp only [Function.comp, processUrl, hju]
        exact startsWithStr_append "## Error scraping " _
  · simp [jina_web_scrape, hemp]
  · simp only [jina_web_scrape, hemp, Bool.false_eq_true, if_false, List.countP_append]
    have h1 := one_le_countP_webStatus e ("Found " ++ (toString urls.length ++ " URLs to scrape"))
      "in_progress" false hs
    have h2 := one_le_countP_webStatus e ("Completed scraping " ++ (toString urls.length ++ " URLs"))
      "complete" true hs
    have h3 := length_le_countP_scrape_events t e urls hs
    omega

/-- Witness for the amended C3 with one URL and a configured sink. -/
theorem C3_block_per_url_and_status_lower_bound_witness :
    ([("https://a.b", FetchOutcome.success "x")] : List (String × FetchOutcome)) ≠ []
    ∧ ({ hasSink := true, statusPrefix := none } : Emitter).hasSink = true
    ∧ (List.Forall₂ (fun (_p : String × FetchOutcome) (b : String) =>
          startsWithStr b "## Web Scrape Result for " = true
          ∨ startsWithStr b "## Error scraping " = true
          ∨ startsWithStr b "## Error processing " = true)
        [("https://a.b", FetchOutcome.success "x")]
        (jina_web_scrape toolsInit { hasSink := true, statusPrefix := none }
          [("https://a.b", FetchOutcome.success "x")]).blocks
    ∧ (jina_web_scrape toolsInit { hasSink := true, statusPrefix := none }
          [("https://a.b", FetchOutcome.success "x")]).result
        = String.join (jina_web_scrape toolsInit { hasSink := true, statusPrefix := none }
          [("https://a.b", FetchOutcome.success "x")]).blocks
    ∧ ([("https://a.b", FetchOutcome.success "x")] : List (String × FetchOutcome)).length + 2
        ≤ (jina_web_scrape toolsInit { hasSink := true, statusPrefix := none }
          [("https://a.b", FetchOutcome.success "x")]).events.countP isStatusEv) :=
  ⟨by decide, rfl,
    C3_block_per_url_and_status_lower_bound toolsInit { hasSink := true, statusPrefix := none }
      [("https://a.b", FetchOutcome.success "x")] (by decide) rfl⟩

/-- C4: When the HTTP request for the i-th URL fails (a request was issued,
so its `urljoin` returned a value), the workflow reports a failure status
scoped to that URL — the event `status("Failed to scrape {url}: {err}",
"error", False)` reaches the sink — and still produces one block per URL:
the failed URL's block is the error block beginning
`"## Error scraping {url}:"`, and every successfully fetched URL keeps its
full result block; the workflow is a total function, so the failure never
propagates to the caller. -/
theorem C4_single_failure_does_not_abort (t : ToolsCfg) (e : Emitter)
    (urls : List (String × FetchOutcome)) (i : Nat) (hi : i < urls.length)
    (url err ju : String) (h : urls[i] = (url, FetchOutcome.failure err))
    (hj : urljoin t.base_url (normalizeUrl url) = Except.ok ju)
    (hs : e.hasSink = true) :
    Event.status "error"
        (prefixApply e ("Failed to scrape " ++ (normalizeUrl url ++ (": " ++ err)))) false
      ∈ (jina_web_scrape t e urls).events
    ∧ (jina_web_scrape t e urls).blocks.length = urls.length
    ∧ (∀ hb : i < (jina_web_scrape t e urls).blocks.length,
        (jina_web_scrape t e urls).blocks[i]
          = "## Error scraping " ++ (normalizeUrl url ++ (": \n"
              ++ (("Failed to scrape " ++ (normalizeUrl url ++ (": " ++ err))) ++ "\n\n"))))
    ∧ (∀ j (hj2 : j < urls.length) (u2 body ju2 : String),
        urls[j] = (u2, FetchOutcome.success body) →
        urljoin t.base_url (normalizeUrl u2) = Except.ok ju2 →
        ∀ hb2 : j < (jina_web_scrape t e urls).blocks.length,
          (jina_web_scrape t e urls).blocks[j]
            = "## Web Scrape Result for " ++ (normalizeUrl u2 ++ (": \n\n"
                ++ (scrapeContent body ++ "\n\n")))) := by
  have hemp : urls.isEmpty = false := by
    cases urls with
    | nil => exact absurd (Nat.not_lt_zero i) (fun hle => hle hi)
    | cons a l => rfl
  refine ⟨?_, ?_, ?_, ?_⟩
  · simp only [jina_web_scrape, hemp, Bool.false_eq_true, if_false]
    refine List.mem_append_left _ (List.mem_append_right _ ?_)
    refine List.mem_flatten.mpr
      ⟨(processUrl t e (url, FetchOutcome.failure err)).1, ?_, ?_⟩
    · rw [← h]
      exact List.mem_map_of_mem Prod.fst
        (List.mem_map_of_mem (processUrl t e) (List.getElem_mem hi))
    · simp only [processUrl, hj]
      exact List.mem_append_right _
        (mem_webStatus e ("Failed to scrape " ++ (normalizeUrl url ++ (": " ++ err)))
          "error" false hs)
  · simp [jina_web_scrape, hemp]
  · intro hb
    simp only [jina_web_scrape, hemp, Bool.false_eq_true, if_false, List.map_map] at hb ⊢
    rw [List.getElem_map]
    simp [Function.comp, h, processUrl, hj]
  · intro j hj2 u2 body ju2 hjv hju2 hb2
    simp only [jina_web_scrape, hemp, Bool.false_eq_true, if_false, List.map_map] at hb2 ⊢
    rw [List.getElem_map]
    simp [Function.comp, hjv, processUrl, hju2]

/-- Witness for C4: the first of two URLs fails, its failure status is
emitted, and the second URL still yields its result block. -/
theorem C4_single_failure_does_not_abort_witness :
    (0 : Nat) < ([("https://a.b", FetchOutcome.failure "boom"),
        ("https://c.d", FetchOutcome.success "hello")] : List (String × FetchOutcome)).length
    ∧ ([("https://a.b", FetchOutcome.failure "boom"),
        ("https://c.d", FetchOutcome.success "hello")] : List (String × FetchOutcome))[0]
        = ("https://a.b", FetchOutcome.failure "boom")
    ∧ urljoin toolsInit.base_url (normalizeUrl "https://a.b") = Except.ok "https://a.b"
    ∧ ({ hasSink := true, statusPrefix := none } : Emitter).hasSink = true
    ∧ (Event.status "error"
          (prefixApply { hasSink := true, statusPrefix := none }
            ("Failed to scrape " ++ (normalizeUrl "https://a.b" ++ (": " ++ "boom")))) false
        ∈ (jina_web_scrape toolsInit { hasSink := true, statusPrefix := none }
            [("https://a.b", FetchOutcome.failure "boom"),
             ("https://c.d", FetchOutcome.success "hello")]).events
    ∧ ((jina_web_scrape toolsInit { hasSink := true, statusPrefix := none }
          [("https://a.b", FetchOutcome.failure "boom"),
           ("https://c.d", FetchOutcome.success "hello")]).blocks.length
        = ([("https://a.b", FetchOutcome.failure "boom"),
            ("https://c.d", FetchOutcome.success "hello")] : List (String × FetchOutcome)).length
    ∧ (∀ hb : 0 < (jina_web_scrape toolsInit { hasSink := true, statusPrefix := none }
          [("https://a.b", FetchOutcome.failure "boom"),
           ("https://c.d", FetchOutcome.success "hello")]).blocks.length,
        (jina_web_scrape toolsInit { hasSink := true, statusPrefix := none }
          [("https://a.b", FetchOutcome.failure "boom"),
           ("https://c.d", FetchOutcome.success "hello")]).blocks[0]
          = "## Error scraping " ++ (normalizeUrl "https://a.b" ++ (": \n"
              ++ (("Failed to scrape " ++ (normalizeUrl "https://a.b" ++ (": " ++ "boom"))) ++ "\n\n"))))
    ∧ (∀ j (hj2 : j < ([("https://a.b", FetchOutcome.failure "boom"),
            ("https://c.d", FetchOutcome.success "hello")] : List (String × FetchOutcome)).length)
          (u2 body ju2 : String),
        ([("https://a.b", FetchOutcome.failure "boom"),
          ("https://c.d", FetchOutcome.success "hello")] : List (String × FetchOutcome))[j]
          = (u2, FetchOutcome.success body) →
        urljoin toolsInit.base_url (normalizeUrl u2) = Except.ok ju2 →
        ∀ hb2 : j < (jina_web_scrape toolsInit { hasSink := true, statusPrefix := none }
            [("https://a.b", FetchOutcome.failure "boom"),
             ("https://c.d", FetchOutcome.success "hello")]).blocks.length,
          (jina_web_scrape toolsInit { hasSink := true, statusPrefix := none }
            [("https://a.b", FetchOutcome.failure "boom"),
             ("https://c.d", FetchOutcome.success "hello")]).blocks[j]
            = "## Web Scrape Result for " ++ (normalizeUrl u2 ++ (": \n\n"
                ++ (scrapeContent body ++ "\n\n")))))) :=
  ⟨by decide, by decide, by decide, rfl,
    C4_single_failure_does_not_abort toolsInit { hasSink := true, statusPrefix := none }
      [("https://a.b", FetchOutcome.failure "boom"), ("https://c.d", FetchOutcome.success "hello")]
      0 (by decide) "https://a.b" "boom" "https://a.b" (by decide) (by decide) rfl⟩

theorem rfindFrom_eq_some (sub s : List Char) (k : Nat) :
    ∀ n, k ≤ n → occursAt sub s k = true →
      (∀ j, k < j → j ≤ n → occursAt sub s j = false) →
      rfindFrom sub s n = some k := by
  intro n
  induction n with
  | zero =>
    intro hk h0 _
    have hk0 : k = 0 := Nat.le_zero.mp hk
    subst hk0
    simp [rfindFrom, h0]
  | succ n ih =>
    intro hk hocc hmax
    by_cases hk1 : k = n + 1
    · subst hk1
      simp [rfindFrom, hocc]
    · have hfail : occursAt sub s (n + 1) = false := hmax (n + 1) (by omega) (Nat.le_refl _)
      simp only [rfindFrom, hfail, Bool.false_eq_true, if_false]
      exact ih (by omega) hocc (fun j h1 h2 => hmax j h1 (by omega))

/-- C7 counterexample: the claim says the truncated content keeps leading
content and trims only trailing whitespace, but the code applies Python
`str.strip()`, which also removes leading whitespace: on the body
`" a Images: x"` the code produces `"a"`, the claim's reading `" a"`. -/
theorem C7_counterexample_leading_space :
    scrapeContent " a Images: x" = "a"
    ∧ scrapeContentSpec " a Images: x" = " a"
    ∧ scrapeContent " a Images: x" ≠ scrapeContentSpec " a Images: x" := by
  decide

/-- C7 (amended): on a successful scrape whose body contains `"Images:"`,
the content placed in the result block is the body truncated at the last
occurrence of the marker with both leading and trailing whitespace
stripped; when the marker is absent the full body is included unchanged. -/
theorem C7_truncates_at_last_marker_and_strips (body : String) (pre suf : List Char)
    (hb : body.data = pre ++ ("Images:".data ++ suf))
    (hlast : ∀ j, j < body.data.length + 1 → pre.length < j →
      occursAt "Images:".data body.data j = false) :
    scrapeContent body = pyStrip ⟨pre⟩
    ∧ (∀ b2 : String, pyRFind b2.data "Images:".data = none → scrapeContent b2 = b2)
    ∧ (∀ (e : Emitter) (u ju : String),
        urljoin toolsInit.base_url (normalizeUrl u) = Except.ok ju →
        (processUrl toolsInit e (u, FetchOutcome.success body)).2.2
          = "## Web Scrape Result for " ++ (normalizeUrl u ++ (": \n\n"
              ++ (scrapeContent body ++ "\n\n")))) := by
  have hocc : occursAt "Images:".data body.data pre.length = true := by
    unfold occursAt
    rw [hb, List.drop_left]
    exact isPrefixOf_append_self _ _
  have hkn : pre.length ≤ body.data.length := by
    rw [hb]
    simp [List.length_append]
  have hfind : pyRFind body.data "Images:".data = some pre.length := by
    unfold pyRFind
    exact rfindFrom_eq_some _ _ _ _ hkn hocc (fun j h1 h2 => hlast j (by omega) h1)
  have htake : body.data.take pre.length = pre := by
    rw [hb]
    exact List.take_left pre _
  refine ⟨?_, ?_, fun e u ju hju => by simp only [processUrl, hju]⟩
  · simp only [scrapeContent, hfind, htake]
  · intro b2 h2
    simp only [scrapeContent, h2]

/-- Witness for C7 at the body `" a Images: x"`. -/
theorem C7_truncates_at_last_marker_and_strips_witness :
    (" a Images: x" : String).data = [' ', 'a', ' '] ++ ("Images:".data ++ [' ', 'x'])
    ∧ (∀ j, j < (" a Images: x" : String).data.length + 1 → ([' ', 'a', ' '] : List Char).length < j →
        occursAt "Images:".data (" a Images: x" : String).data j = false)
    ∧ (scrapeContent " a Images: x" = pyStrip ⟨[' ', 'a', ' ']⟩
      ∧ (∀ b2 : String, pyRFind b2.data "Images:".data = none → scrapeContent b2 = b2)
      ∧ (∀ (e : Emitter) (u ju : String),
          urljoin toolsInit.base_url (normalizeUrl u) = Except.ok ju →
          (processUrl toolsInit e (u, FetchOutcome.success " a Images: x")).2.2
            = "## Web Scrape Result for " ++ (normalizeUrl u ++ (": \n\n"
                ++ (scrapeContent " a Images: x" ++ "\n\n"))))) :=
  ⟨by decide, by decide,
    C7_truncates_at_last_marker_and_strips " a Images: x" [' ', 'a', ' '] [' ', 'x']
      (by decide) (by decide)⟩

/-- C10: Every string matched by the URL pattern already begins with
`http://` or `https://`, so the scheme-prepending normalization at lines
65-66 is the identity on every extracted URL. -/
theorem C10_extracted_urls_keep_scheme (s : String) (h : urlPatternMatch s) :
    (startsWithStr s "http://" = true ∨ startsWithStr s "https://" = true)
    ∧ normalizeUrl s = s := by
  obtain ⟨scheme, core, tail, hsch, _hcore, _htail, hdata⟩ := h
  have hstart : startsWithStr s "http://" = true ∨ startsWithStr s "https://" = true := by
    cases hsch with
    | inl h7 =>
      exact Or.inl (startsWithStr_of_data_append s "http://" (core ++ tail) (by rw [hdata, h7]))
    | inr h8 =>
      exact Or.inr (startsWithStr_of_data_append s "https://" (core ++ tail) (by rw [hdata, h8]))
  refine ⟨hstart, ?_⟩
  unfold normalizeUrl
  cases hstart with
  | inl h1 => simp [h1]
  | inr h2 => simp [h2]

/-- Witness for C10 at the extracted URL `"https://a.b"`. -/
theorem C10_extracted_urls_keep_scheme_witness :
    urlPatternMatch "https://a.b"
    ∧ ((startsWithStr "https://a.b" "http://" = true
        ∨ startsWithStr "https://a.b" "https://" = true)
      ∧ normalizeUrl "https://a.b" = "https://a.b") := by
  have hcore : UrlCorePlus ['a', '.', 'b'] :=
    UrlCorePlus.cons ['a'] ['.', 'b'] (UrlUnit.simple 'a' (by decide))
      (UrlCorePlus.cons ['.'] ['b'] (UrlUnit.simple '.' (by decide))
        (UrlCorePlus.last ['b'] (UrlUnit.simple 'b' (by decide))))
  have hm : urlPatternMatch "https://a.b" :=
    ⟨"https://".data, ['a', '.', 'b'], [], Or.inr rfl, hcore, by simp, by decide⟩
  exact ⟨hm, C10_extracted_urls_keep_scheme "https://a.b" hm⟩
